import Mathlib

/-!
Verification of the PythonAIAgent repository specification against its code.

The frontend sources (src/frontend/ai-chat) are embedded directly:
`utils/auth.ts`, `services/api.ts` and the chat component.  The backend
execution runtime described by the spec (base agent / orchestrator) is not
present in the source tree, so its behaviour is modelled from the spec where
a claim requires it; those definitions carry a doc comment starting with
`Modelled from the spec:`.
-/

namespace PyAgent

/-! ## localStorage model

`localStorage` is a string-keyed string store.  `getItem` returns the stored
value or `none` (JS `null`); `setItem` overwrites; `removeItem` deletes. -/

/-- The browser localStorage: an association list of present keys. -/
abbrev Store := List (String × String)

/-- `localStorage.getItem k`: the stored value, or `none` for JS null. -/
def getItem (st : Store) (k : String) : Option String :=
  (st.find? (fun kv => kv.1 == k)).map (fun kv => kv.2)

/-- `localStorage.setItem k v`: overwrite the binding for `k`. -/
def setItem (st : Store) (k v : String) : Store :=
  (k, v) :: st.filter (fun kv => kv.1 != k)

/-- `localStorage.removeItem k`. -/
def removeItem (st : Store) (k : String) : Store :=
  st.filter (fun kv => kv.1 != k)

/-- JS truthiness coercion of `getItem` results as used by
`localStorage.getItem(k) || undefined`: the empty string and null both
collapse to `undefined` (here `none`). -/
def truthyOpt (o : Option String) : Option String :=
  match o with
  | some s => if s = "" then none else some s
  | none => none

/-! ## utils/auth.ts -/

/-- The `AuthTokens` interface of `utils/auth.ts`: four optional fields. -/
structure AuthTokens where
  basicAuth : Option String := none
  token : Option String := none
  userId : Option String := none
  userInfo : Option String := none
deriving DecidableEq, Repr

/-- One `if (tokens.x) localStorage.setItem(key, tokens.x)` block of
`storeTokens`: the write happens only when the field is truthy (present and
non-empty). -/
def writeField (key : String) (o : Option String) (st : Store) : Store :=
  match o with
  | some s => if s = "" then st else setItem st key s
  | none => st

/-- `authUtils.storeTokens`: writes each field to localStorage only when the
field is truthy, in source order basic_auth, token, user_id, user_info. -/
def storeTokens (tokens : AuthTokens) (st : Store) : Store :=
  writeField "user_info" tokens.userInfo
    (writeField "user_id" tokens.userId
      (writeField "token" tokens.token
        (writeField "basic_auth" tokens.basicAuth st)))

/-- `authUtils.getTokens`: reads the four keys, coercing null and the empty
string to `undefined` via `|| undefined`. -/
def getTokens (st : Store) : AuthTokens :=
  { basicAuth := truthyOpt (getItem st "basic_auth")
    token := truthyOpt (getItem st "token")
    userId := truthyOpt (getItem st "user_id")
    userInfo := truthyOpt (getItem st "user_info") }

/-- `authUtils.getAuthHeader`: prefer the stored basic credential raw;
otherwise fall back to `"Bearer " + token`; otherwise null. -/
def getAuthHeader (st : Store) : Option String :=
  let tokens := getTokens st
  match tokens.basicAuth with
  | some b => some b
  | none =>
    match tokens.token with
    | some t => some ("Bearer " ++ t)
    | none => none

/-- `authUtils.isAuthenticated`: `!!(tokens.basicAuth || tokens.token)`. -/
def isAuthenticated (st : Store) : Bool :=
  let tokens := getTokens st
  tokens.basicAuth.isSome || tokens.token.isSome

/-! ## services/api.ts -/

/-- `pat` occurs at the start of `s` (on character lists). -/
def charsStartWith : List Char → List Char → Bool
  | [], _ => true
  | _ :: _, [] => false
  | c :: cs, d :: ds => c == d && charsStartWith cs ds

/-- `pat` occurs somewhere in `s` (on character lists). -/
def charsContain (pat : List Char) : List Char → Bool
  | [] => charsStartWith pat []
  | d :: ds => charsStartWith pat (d :: ds) || charsContain pat ds

/-- JS `url.includes(pat)`: `pat` occurs as a substring of `url`. -/
def urlContains (url pat : String) : Bool :=
  charsContain pat.data url.data

/-- Axios request headers: an association list, later writes overwrite. -/
def setHeader (headers : List (String × String)) (k v : String) :
    List (String × String) :=
  (k, v) :: headers.filter (fun kv => kv.1 != k)

/-- Read a header value. -/
def getHeader (headers : List (String × String)) (k : String) : Option String :=
  (headers.find? (fun kv => kv.1 == k)).map (fun kv => kv.2)

/-- An axios request config: the url and its headers. -/
structure RequestConfig where
  url : String
  headers : List (String × String) := []
deriving DecidableEq, Repr

/-- The `api.interceptors.request` handler: login endpoints pass through
untouched; every other request gets `Authorization` set to the stored
`basic_auth` (or the empty string when absent) and a JSON content type,
reading localStorage at call time. -/
def requestInterceptor (st : Store) (config : RequestConfig) : RequestConfig :=
  if urlContains config.url "/login" ||
      urlContains config.url "/persons/authenticate" then
    config
  else
    let basicAuth := getItem st "basic_auth"
    { config with
      headers :=
        setHeader
          (setHeader config.headers "Authorization" (basicAuth.getD ""))
          "Content-Type" "application/json" }

/-- Outcome of the `api.interceptors.response` error handler: the resulting
localStorage, the navigation target if any, and whether the error is
propagated (the handler ends in `Promise.reject(error)` on every path and
never issues a retry request). -/
structure ResponseErrorResult where
  store : Store
  redirectTo : Option String
  rejected : Bool
deriving DecidableEq, Repr

/-- The `api.interceptors.response` error handler: on status 401 it removes
the six auth keys from localStorage and navigates to `/login`; on every
status it rejects the error unchanged. -/
def responseErrorInterceptor (status : Option Nat) (st : Store) :
    ResponseErrorResult :=
  if status = some 401 then
    let st1 := removeItem st "token"
    let st2 := removeItem st1 "basic_auth"
    let st3 := removeItem st2 "user_id"
    let st4 := removeItem st3 "user_info"
    let st5 := removeItem st4 "auth_details"
    let st6 := removeItem st5 "auth_api_response"
    { store := st6, redirectTo := some "/login", rejected := true }
  else
    { store := st, redirectTo := none, rejected := true }

/-- The `LoginRequest` carried by `authAPI.login`. -/
structure LoginRequest where
  username : String
  password : String
deriving DecidableEq, Repr

/-- One field-equality clause of a MongoDB-style WHERE query. -/
structure FieldEq where
  field : String
  value : String
deriving DecidableEq, Repr

/-- The WHERE query built by `authAPI.login`: the `$or` of a username clause
and a password clause, exactly as in the source. -/
def loginWhereQuery (credentials : LoginRequest) : List FieldEq :=
  [{ field := "username", value := credentials.username },
    { field := "password", value := credentials.password }]

/-- A person record as the authentication backend filters it. -/
structure PersonRecord where
  username : String
  password : String
deriving DecidableEq, Repr

/-- Field access on a person record. -/
def recordField (r : PersonRecord) (f : String) : Option String :=
  if f = "username" then some r.username
  else if f = "password" then some r.password
  else none

/-- One WHERE clause matches a record iff the named field equals the value. -/
def clauseMatches (r : PersonRecord) (c : FieldEq) : Bool :=
  decide (recordField r c.field = some c.value)

/-- MongoDB `$or` semantics: the query matches iff some clause matches. -/
def orMatches (clauses : List FieldEq) (r : PersonRecord) : Bool :=
  clauses.any (clauseMatches r)

/-! ## components/Chat.tsx -/

/-- Chat message sender. -/
inductive Sender
  | user
  | ai
deriving DecidableEq, Repr

/-- A chat `Message` (the fields `sendMessage` populates). -/
structure Message where
  id : String
  text : String
  sender : Sender
  timestamp : Nat
  sources : List String := []
  tools_used : List String := []
deriving DecidableEq, Repr

/-- The `ChatResponse` fields `sendMessage` reads. -/
structure ChatResponse where
  response : String
  sources : List String := []
  tools_used : List String := []
deriving DecidableEq, Repr

/-- The component state `sendMessage` touches. -/
structure ChatState where
  messages : List Message
  inputText : String
  isLoading : Bool
deriving DecidableEq, Repr

/-- JS `!s.trim()`: the string is empty or all whitespace. -/
def isBlank (s : String) : Bool :=
  s.data.all Char.isWhitespace

/-- The awaited outcome of `chatAPI.sendMessage`: a response, or a thrown
error caught by the `catch` block. -/
abbrev SendResult := Except String ChatResponse

/-- The `sendMessage` handler of `Chat.tsx`: guard on blank input or an
in-flight send; append the user message and set the loading flag; then on
success append the AI message, on any caught error append the fixed error
message; the `finally` block resets the loading flag on both paths. -/
def sendMessage (st : ChatState) (now : Nat) (result : SendResult) :
    ChatState :=
  if isBlank st.inputText || st.isLoading then st
  else
    let userMessage : Message :=
      { id := toString now, text := st.inputText, sender := Sender.user,
        timestamp := now }
    let st1 : ChatState :=
      { st with
        messages := st.messages ++ [userMessage],
        inputText := "",
        isLoading := true }
    match result with
    | Except.ok response =>
      let aiMessage : Message :=
        { id := toString (now + 1), text := response.response,
          sender := Sender.ai, timestamp := now,
          sources := response.sources, tools_used := response.tools_used }
      { st1 with
        messages := st1.messages ++ [aiMessage],
        isLoading := false }
    | Except.error _ =>
      let errorMessage : Message :=
        { id := toString (now + 1),
          text := "Sorry, I encountered an error. Please try again.",
          sender := Sender.ai, timestamp := now }
      { st1 with
        messages := st1.messages ++ [errorMessage],
        isLoading := false }

/-! ## Execution runtime (modelled from the spec)

The backend agent runtime the spec describes (base agent / orchestrator) is
not present under the source tree; the definitions below are modelled from
the spec sections cited in their doc comments. -/

/-- Modelled from the spec: the atomic intent tags of the missing backend
intent model (§3 Intent). -/
inductive APIIntent
  | CREATE
  | READ
  | SEARCH
  | UPDATE
  | DELETE
  | LIST
  | VALIDATE
deriving DecidableEq, Repr

/-- A request payload: a mapping of field names to values. -/
abbrev Payload := List (String × String)

/-- The payload carries a field named `k`. -/
def hasField (payload : Payload) (k : String) : Bool :=
  payload.any (fun kv => kv.1 == k)

/-- Insert a pair keeping the list sorted by key. -/
def insertByKey (kv : String × String) : Payload → Payload
  | [] => [kv]
  | p :: ps => if kv.1 ≤ p.1 then kv :: p :: ps else p :: insertByKey kv ps

/-- Modelled from the spec: payload canonicalization for cache keys of the
missing runtime (§4.1) — sort the fields by name. -/
def canonicalPayload : Payload → Payload
  | [] => []
  | p :: ps => insertByKey p (canonicalPayload ps)

/-- Modelled from the spec: the `AgentResponse` value object of the missing
runtime (§3). -/
structure AgentResponse where
  success : Bool
  data : Option Payload
  error : Option String
  status_code : Nat
  intent : APIIntent
  agent_name : String
  execution_time : Nat
  sources : List String
deriving DecidableEq, Repr

/-- Modelled from the spec: a cache entry of the missing runtime cache
(§3 CacheEntry). -/
structure CacheEntry where
  value : Payload
  insertedAt : Nat
  ttl : Nat
deriving DecidableEq, Repr

/-- A cache key: agent name, intent and canonicalized payload. -/
abbrev CacheKey := String × APIIntent × Payload

/-- The runtime cache. -/
abbrev Cache := List (CacheKey × CacheEntry)

/-- Modelled from the spec: the cache key function of the missing runtime
(§3): `f(agent, intent, canonical payload)`. -/
def cacheKey (agentName : String) (intent : APIIntent) (payload : Payload) :
    CacheKey :=
  (agentName, intent, canonicalPayload payload)

/-- Modelled from the spec: an entry is fresh while its age is within the
ttl; entries past the ttl are treated as absent (§3 CacheEntry
invariant). -/
def entryFresh (now : Nat) (e : CacheEntry) : Bool :=
  now - e.insertedAt ≤ e.ttl

/-- Modelled from the spec: cache lookup of the missing runtime — a stale
entry is treated as absent (§3, §4.1). -/
def cacheLookup (cache : Cache) (key : CacheKey) (now : Nat) :
    Option Payload :=
  match cache.find? (fun kv => decide (kv.1 = key)) with
  | some kv => if entryFresh now kv.2 then some kv.2.value else none
  | none => none

/-- Modelled from the spec: cache insertion on a successful idempotent
call (§4.1). -/
def cacheInsert (cache : Cache) (key : CacheKey) (value : Payload)
    (now ttl : Nat) : Cache :=
  (key, { value := value, insertedAt := now, ttl := ttl }) ::
    cache.filter (fun kv => decide (kv.1 ≠ key))

/-- Modelled from the spec: the minimum payload schema per intent of the
missing runtime (§4.1): SEARCH needs at least one filter field, intents
addressing one resource need an id, CREATE needs a non-empty payload; LIST
and VALIDATE have no required field. -/
def validPayload (intent : APIIntent) (payload : Payload) : Bool :=
  match intent with
  | APIIntent.SEARCH => !payload.isEmpty
  | APIIntent.READ => hasField payload "id"
  | APIIntent.UPDATE => hasField payload "id"
  | APIIntent.DELETE => hasField payload "id"
  | APIIntent.CREATE => !payload.isEmpty
  | APIIntent.LIST => true
  | APIIntent.VALIDATE => true

/-- Modelled from the spec: the idempotent intents served cache-first by the
missing runtime (§3 Ownership, §4.1). -/
def cacheableIntent (intent : APIIntent) : Bool :=
  match intent with
  | APIIntent.READ => true
  | APIIntent.SEARCH => true
  | APIIntent.LIST => true
  | _ => false

/-- Outcome of one network attempt against the backend. -/
inductive NetOutcome
  | ok (data : Payload) (status : Nat)
  | httpErr (status : Nat) (msg : String)
  | netFail (msg : String)
deriving DecidableEq, Repr

/-- Configuration of the modelled runtime: retry bound, cache ttl, and
whether a 401 refresh mechanism is configured. -/
structure RuntimeConfig where
  retryBound : Nat
  cacheTtl : Nat
  refreshConfigured : Bool
deriving DecidableEq, Repr

/-- The distilled outcome of the retry loop. -/
structure CallResult where
  success : Bool
  data : Option Payload
  error : Option String
  status_code : Nat
  attempts : Nat
deriving DecidableEq, Repr

/-- Modelled from the spec: the bounded retry loop of the missing runtime
(§4.1) — transient failures (network faults, 5xx) are retried while fuel
remains; a 401 triggers a single refresh-and-retry when a refresh mechanism
is configured and is otherwise surfaced; other 4xx are surfaced without
retry. `net k` is the outcome of the k-th attempt; `fuel` counts the
remaining allowed attempts. -/
def callLoop (net : Nat → NetOutcome) (refreshConfigured : Bool) :
    Nat → Nat → Bool → CallResult
  | _, 0, _ =>
    { success := false, data := none,
      error := some "retry budget exhausted", status_code := 0,
      attempts := 0 }
  | k, fuel + 1, refreshUsed =>
    match net k with
    | NetOutcome.ok d s =>
      { success := true, data := some d, error := none, status_code := s,
        attempts := 1 }
    | NetOutcome.httpErr s msg =>
      if s = 401 then
        if refreshConfigured && !refreshUsed then
          let r := callLoop net refreshConfigured (k + 1) fuel true
          { r with attempts := r.attempts + 1 }
        else
          { success := false, data := none, error := some msg,
            status_code := s, attempts := 1 }
      else if 500 ≤ s && fuel != 0 then
        let r := callLoop net refreshConfigured (k + 1) fuel refreshUsed
        { r with attempts := r.attempts + 1 }
      else
        { success := false, data := none, error := some msg,
          status_code := s, attempts := 1 }
    | NetOutcome.netFail msg =>
      if fuel != 0 then
        let r := callLoop net refreshConfigured (k + 1) fuel refreshUsed
        { r with attempts := r.attempts + 1 }
      else
        { success := false, data := none, error := some msg,
          status_code := 0, attempts := 1 }

/-- The runtime state: the shared cache it owns. -/
structure RuntimeState where
  cache : Cache
deriving DecidableEq, Repr

/-- Modelled from the spec: `execute(agentName, intent, payload, targetUrl)`
of the missing runtime (§4.1). Validates the intent's minimum schema (a
violation fails immediately with no network call); serves READ/SEARCH/LIST
cache-first with near-zero execution time on a hit; otherwise performs the
call with bounded retry, appends the called URL to `sources` on every
attempt, and caches successful results of idempotent intents. -/
def execute (cfg : RuntimeConfig) (net : Nat → NetOutcome) (now : Nat)
    (st : RuntimeState) (agentName : String) (intent : APIIntent)
    (payload : Payload) (targetUrl : String) :
    AgentResponse × RuntimeState :=
  if !validPayload intent payload then
    ({ success := false, data := none,
        error := some "validation error: payload missing required field",
        status_code := 400, intent := intent, agent_name := agentName,
        execution_time := 0, sources := [] }, st)
  else
    let key := cacheKey agentName intent payload
    match (if cacheableIntent intent then cacheLookup st.cache key now
        else none) with
    | some value =>
      ({ success := true, data := some value, error := none,
          status_code := 200, intent := intent, agent_name := agentName,
          execution_time := 0, sources := [] }, st)
    | none =>
      let r := callLoop net cfg.refreshConfigured 0 (cfg.retryBound + 1)
        false
      let response : AgentResponse :=
        { success := r.success, data := r.data, error := r.error,
          status_code := r.status_code, intent := intent,
          agent_name := agentName, execution_time := 1,
          sources := List.replicate r.attempts targetUrl }
      let st2 :=
        if r.success && cacheableIntent intent then
          match r.data with
          | some d =>
            { st with
              cache := cacheInsert st.cache key d now cfg.cacheTtl }
          | none => st
        else st
      (response, st2)

end PyAgent

namespace PyAgent

/-! ## Store lemmas -/

theorem find?_filter_of_imp {α : Type} (p q : α → Bool) (l : List α)
    (h : ∀ x, p x = true → q x = true) :
    (l.filter q).find? p = l.find? p := by
  induction l with
  | nil => rfl
  | cons a l ih =>
    by_cases hq : q a = true
    · by_cases hp : p a = true
      · simp [List.filter_cons, hq, List.find?_cons, hp]
      · simp only [List.filter_cons, hq, if_true, List.find?_cons]
        simp only [Bool.not_eq_true] at hp
        simp [hp, ih]
    · have hp : p a = false := by
        cases hpa : p a with
        | true => exact absurd (h a hpa) hq
        | false => rfl
      simp only [Bool.not_eq_true] at hq
      simp [List.filter_cons, hq, List.find?_cons, hp, ih]

theorem getItem_setItem_same (st : Store) (k v : String) :
    getItem (setItem st k v) k = some v := by
  simp [getItem, setItem, List.find?_cons]

theorem getItem_setItem_other (st : Store) (k k' v : String) (h : k' ≠ k) :
    getItem (setItem st k v) k' = getItem st k' := by
  have hk : (k == k') = false := by
    simp [beq_iff_eq]
    exact fun he => h he.symm
  simp only [getItem, setItem, List.find?_cons, hk]
  rw [find?_filter_of_imp]
  intro x hx
  simp only [beq_iff_eq] at hx
  simp [bne_iff_ne, hx]
  exact h

theorem getItem_removeItem_same (st : Store) (k : String) :
    getItem (removeItem st k) k = none := by
  simp only [getItem, removeItem]
  have h : (List.filter (fun kv => kv.1 != k) st).find? (fun kv => kv.1 == k)
      = none := by
    rw [List.find?_eq_none]
    intro x hx
    simp only [List.mem_filter, bne_iff_ne] at hx
    simp [beq_iff_eq]
    exact hx.2
  rw [h]
  rfl

theorem getItem_removeItem_other (st : Store) (k k' : String) (h : k' ≠ k) :
    getItem (removeItem st k) k' = getItem st k' := by
  simp only [getItem, removeItem]
  rw [find?_filter_of_imp]
  intro x hx
  simp only [beq_iff_eq] at hx
  simp [bne_iff_ne, hx]
  exact h

theorem getItem_writeField_other (key : String) (o : Option String)
    (st : Store) (k' : String) (h : k' ≠ key) :
    getItem (writeField key o st) k' = getItem st k' := by
  cases o with
  | none => rfl
  | some s =>
    by_cases hs : s = ""
    · simp [writeField, hs]
    · simp [writeField, hs, getItem_setItem_other st key k' s h]

theorem getItem_writeField_same (key : String) (o : Option String)
    (st : Store) :
    getItem (writeField key o st) key =
      (match o with
        | some s => if s = "" then getItem st key else some s
        | none => getItem st key) := by
  cases o with
  | none => rfl
  | some s =>
    by_cases hs : s = ""
    · simp [writeField, hs]
    · simp [writeField, hs, getItem_setItem_same st key s]

end PyAgent

namespace PyAgent

/-- **C1** For every authentication state, `getAuthHeader` prefers the stored
raw basic credential over the bearer token: if a basic credential is stored
it is returned unchanged (even when a bearer token is also stored); if only
a bearer token is stored, `"Bearer " ++ token` is returned; if neither is
stored, the result is null. -/
theorem getAuthHeader_prefers_basic (st : Store) :
    (∀ b, (getTokens st).basicAuth = some b → getAuthHeader st = some b) ∧
    ((getTokens st).basicAuth = none →
      ∀ t, (getTokens st).token = some t →
        getAuthHeader st = some ("Bearer " ++ t)) ∧
    ((getTokens st).basicAuth = none → (getTokens st).token = none →
      getAuthHeader st = none) := by
  refine ⟨?_, ?_, ?_⟩
  · intro b hb
    simp [getAuthHeader, hb]
  · intro hb t ht
    simp [getAuthHeader, hb, ht]
  · intro hb ht
    simp [getAuthHeader, hb, ht]

/-- Witness for C1: with both a basic credential and a bearer token stored,
the basic credential is returned unchanged. -/
theorem getAuthHeader_prefers_basic_witness :
    getAuthHeader [("basic_auth", "abc"), ("token", "tok")] = some "abc" :=
  (getAuthHeader_prefers_basic [("basic_auth", "abc"), ("token", "tok")]).1
    "abc" (by decide)

/-- **C8** `isAuthenticated` returns true iff `getAuthHeader` returns a
non-null value, i.e. exactly when at least one of the basic credential or
the bearer token is stored. -/
theorem isAuthenticated_iff_authHeader (st : Store) :
    (isAuthenticated st = true ↔ (getAuthHeader st).isSome = true) ∧
    (isAuthenticated st = true ↔
      ((getTokens st).basicAuth.isSome = true ∨
        (getTokens st).token.isSome = true)) := by
  constructor
  · cases hb : (getTokens st).basicAuth with
    | some b => simp [isAuthenticated, getAuthHeader, hb]
    | none =>
      cases ht : (getTokens st).token with
      | some t => simp [isAuthenticated, getAuthHeader, hb, ht]
      | none => simp [isAuthenticated, getAuthHeader, hb, ht]
  · cases hb : (getTokens st).basicAuth with
    | some b => simp [isAuthenticated, hb]
    | none =>
      cases ht : (getTokens st).token with
      | some t => simp [isAuthenticated, hb, ht]
      | none => simp [isAuthenticated, hb, ht]

end PyAgent

namespace PyAgent

/-! ## Header lemmas -/

theorem getHeader_setHeader_same (hs : List (String × String)) (k v : String) :
    getHeader (setHeader hs k v) k = some v := by
  simp [getHeader, setHeader, List.find?_cons]

theorem getHeader_setHeader_other (hs : List (String × String))
    (k k' v : String) (h : k' ≠ k) :
    getHeader (setHeader hs k v) k' = getHeader hs k' := by
  have hk : (k == k') = false := by
    simp [beq_iff_eq]
    exact fun he => h he.symm
  simp only [getHeader, setHeader, List.find?_cons, hk]
  rw [find?_filter_of_imp]
  intro x hx
  simp only [beq_iff_eq] at hx
  simp [bne_iff_ne, hx]
  exact h

/-- Reading a key of `storeTokens` output reduces to the write for that key:
the other three writes use different keys. -/
theorem getItem_storeTokens_basic (tokens : AuthTokens) (st : Store) :
    getItem (storeTokens tokens st) "basic_auth" =
      getItem (writeField "basic_auth" tokens.basicAuth st) "basic_auth" := by
  unfold storeTokens
  rw [getItem_writeField_other _ _ _ _ (by decide),
    getItem_writeField_other _ _ _ _ (by decide),
    getItem_writeField_other _ _ _ _ (by decide)]

theorem getItem_storeTokens_token (tokens : AuthTokens) (st : Store) :
    getItem (storeTokens tokens st) "token" =
      getItem
        (writeField "token" tokens.token
          (writeField "basic_auth" tokens.basicAuth st)) "token" := by
  unfold storeTokens
  rw [getItem_writeField_other _ _ _ _ (by decide),
    getItem_writeField_other _ _ _ _ (by decide)]

theorem getItem_storeTokens_userId (tokens : AuthTokens) (st : Store) :
    getItem (storeTokens tokens st) "user_id" =
      getItem
        (writeField "user_id" tokens.userId
          (writeField "token" tokens.token
            (writeField "basic_auth" tokens.basicAuth st))) "user_id" := by
  unfold storeTokens
  rw [getItem_writeField_other _ _ _ _ (by decide)]

end PyAgent

namespace PyAgent

/-- **C9 counterexample** The claim "each provided field is subsequently
returned verbatim by getTokens" fails at the empty string: providing
`basicAuth = ""` is skipped by the truthiness guard, so the old stored value
`"X"` survives and is returned instead of `""`. -/
theorem storeTokens_empty_field_counterexample :
    (getTokens
        (storeTokens { basicAuth := some "" } [("basic_auth", "X")])).basicAuth
      = some "X" ∧ ("X" : String) ≠ "" := by
  constructor
  · rfl
  · decide

/-- **C9 (amended)** `storeTokens` only writes the fields that are provided
and non-empty: a field that is absent or empty leaves its localStorage key
unchanged, and a provided non-empty field is subsequently returned verbatim
by `getTokens`. -/
theorem storeTokens_frame (tokens : AuthTokens) (st : Store) :
    ((∀ s, tokens.basicAuth = some s → s ≠ "" →
        (getTokens (storeTokens tokens st)).basicAuth = some s) ∧
      (tokens.basicAuth = none ∨ tokens.basicAuth = some "" →
        getItem (storeTokens tokens st) "basic_auth"
          = getItem st "basic_auth")) ∧
    ((∀ s, tokens.token = some s → s ≠ "" →
        (getTokens (storeTokens tokens st)).token = some s) ∧
      (tokens.token = none ∨ tokens.token = some "" →
        getItem (storeTokens tokens st) "token" = getItem st "token")) ∧
    ((∀ s, tokens.userId = some s → s ≠ "" →
        (getTokens (storeTokens tokens st)).userId = some s) ∧
      (tokens.userId = none ∨ tokens.userId = some "" →
        getItem (storeTokens tokens st) "user_id" = getItem st "user_id")) ∧
    ((∀ s, tokens.userInfo = some s → s ≠ "" →
        (getTokens (storeTokens tokens st)).userInfo = some s) ∧
      (tokens.userInfo = none ∨ tokens.userInfo = some "" →
        getItem (storeTokens tokens st) "user_info"
          = getItem st "user_info")) := by
  have hwf : ∀ (key : String) (o : Option String) (st' : Store),
      (o = none ∨ o = some "") →
      getItem (writeField key o st') key = getItem st' key := by
    intro key o st' ho
    rcases ho with h | h <;> simp [writeField, h]
  have hwv : ∀ (key : String) (s : String) (st' : Store), s ≠ "" →
      getItem (writeField key (some s) st') key = some s := by
    intro key s st' hs
    simp [writeField, hs, getItem_setItem_same]
  refine ⟨⟨?_, ?_⟩, ⟨?_, ?_⟩, ⟨?_, ?_⟩, ⟨?_, ?_⟩⟩
  · intro s hs hne
    show truthyOpt (getItem (storeTokens tokens st) "basic_auth") = some s
    rw [getItem_storeTokens_basic, hs, hwv _ _ _ hne]
    simp [truthyOpt, hne]
  · intro ho
    rw [getItem_storeTokens_basic, hwf _ _ _ ho]
  · intro s hs hne
    show truthyOpt (getItem (storeTokens tokens st) "token") = some s
    rw [getItem_storeTokens_token, hs, hwv _ _ _ hne]
    simp [truthyOpt, hne]
  · intro ho
    rw [getItem_storeTokens_token, hwf _ _ _ ho,
      getItem_writeField_other _ _ _ _ (by decide)]
  · intro s hs hne
    show truthyOpt (getItem (storeTokens tokens st) "user_id") = some s
    rw [getItem_storeTokens_userId, hs, hwv _ _ _ hne]
    simp [truthyOpt, hne]
  · intro ho
    rw [getItem_storeTokens_userId, hwf _ _ _ ho,
      getItem_writeField_other _ _ _ _ (by decide),
      getItem_writeField_other _ _ _ _ (by decide)]
  · intro s hs hne
    show truthyOpt (getItem (storeTokens tokens st) "user_info") = some s
    unfold storeTokens
    rw [hs, hwv _ _ _ hne]
    simp [truthyOpt, hne]
  · intro ho
    unfold storeTokens
    rw [hwf _ _ _ ho,
      getItem_writeField_other _ _ _ _ (by decide),
      getItem_writeField_other _ _ _ _ (by decide),
      getItem_writeField_other _ _ _ _ (by decide)]

/-- Witness for C9 (amended): a provided non-empty basicAuth is returned
verbatim even when other fields are absent. -/
theorem storeTokens_frame_witness :
    (getTokens
        (storeTokens { basicAuth := some "abc", token := some "t" }
          [("user_id", "u")])).basicAuth = some "abc" :=
  (storeTokens_frame { basicAuth := some "abc", token := some "t" }
    [("user_id", "u")]).1.1 "abc" rfl (by decide)

/-- **C6** After the shared credential is updated by storing a new basic
credential, every subsequent non-login request built by the request
interceptor attaches the new credential: the interceptor reads localStorage
at call time, so its `Authorization` header equals the newly stored value
regardless of the previous store contents. -/
theorem interceptor_uses_fresh_credential (st : Store) (b : String)
    (config : RequestConfig) (hb : b ≠ "")
    (h1 : urlContains config.url "/login" = false)
    (h2 : urlContains config.url "/persons/authenticate" = false) :
    getHeader
      (requestInterceptor (storeTokens { basicAuth := some b } st)
        config).headers "Authorization" = some b := by
  have hst : getItem (storeTokens { basicAuth := some b } st) "basic_auth"
      = some b := by
    rw [getItem_storeTokens_basic]
    simp [writeField, hb, getItem_setItem_same]
  simp only [requestInterceptor, h1, h2, Bool.or_self, if_neg,
    Bool.false_eq_true, not_false_iff]
  rw [getHeader_setHeader_other _ _ _ _ (by decide),
    getHeader_setHeader_same, hst]
  rfl

/-- Witness for C6: after storing `"newcred"` over an old credential, a
request to `/chat` carries `Authorization: newcred`. -/
theorem interceptor_uses_fresh_credential_witness :
    getHeader
      (requestInterceptor
        (storeTokens { basicAuth := some "newcred" } [("basic_auth", "old")])
        { url := "/chat" }).headers "Authorization" = some "newcred" :=
  interceptor_uses_fresh_credential [("basic_auth", "old")] "newcred"
    { url := "/chat" } (by decide) (by decide) (by decide)

end PyAgent

namespace PyAgent

/-- **C3 counterexample** At HTTP 401 with stored credentials, the response
interceptor discards the credentials (the store loses basic_auth and token),
redirects to /login, and still propagates the error: no refresh-and-retry of
the request ever happens, which is exactly the behaviour the claim rules
out. -/
theorem response401_discards_credentials :
    (responseErrorInterceptor (some 401)
        [("basic_auth", "X"), ("token", "T")]).store = [] ∧
    (responseErrorInterceptor (some 401)
        [("basic_auth", "X"), ("token", "T")]).redirectTo = some "/login" ∧
    (responseErrorInterceptor (some 401)
        [("basic_auth", "X"), ("token", "T")]).rejected = true := by
  refine ⟨rfl, rfl, rfl⟩

/-- **C3 (amended)** The response interceptor never retries any status: every
error is propagated. A 401 additionally clears all six stored auth keys and
redirects to /login (discarding the credentials instead of refreshing); any
other status leaves the store untouched with no redirect. -/
theorem responseInterceptor_behavior (status : Option Nat) (st : Store) :
    (responseErrorInterceptor status st).rejected = true ∧
    (status = some 401 →
      getItem (responseErrorInterceptor status st).store "token" = none ∧
      getItem (responseErrorInterceptor status st).store "basic_auth"
        = none ∧
      getItem (responseErrorInterceptor status st).store "user_id" = none ∧
      getItem (responseErrorInterceptor status st).store "user_info" = none ∧
      getItem (responseErrorInterceptor status st).store "auth_details"
        = none ∧
      getItem (responseErrorInterceptor status st).store "auth_api_response"
        = none ∧
      (responseErrorInterceptor status st).redirectTo = some "/login") ∧
    (status ≠ some 401 →
      (responseErrorInterceptor status st).store = st ∧
      (responseErrorInterceptor status st).redirectTo = none) := by
  refine ⟨?_, ?_, ?_⟩
  · by_cases h : status = some 401 <;> simp [responseErrorInterceptor, h]
  · intro h
    subst h
    have hred : responseErrorInterceptor (some 401) st =
        { store :=
            removeItem
              (removeItem
                (removeItem
                  (removeItem
                    (removeItem (removeItem st "token") "basic_auth")
                    "user_id")
                  "user_info")
                "auth_details")
              "auth_api_response",
          redirectTo := some "/login", rejected := true } := rfl
    rw [hred]
    refine ⟨?_, ?_, ?_, ?_, ?_, ?_, rfl⟩
    · rw [getItem_removeItem_other _ _ _ (by decide),
        getItem_removeItem_other _ _ _ (by decide),
        getItem_removeItem_other _ _ _ (by decide),
        getItem_removeItem_other _ _ _ (by decide),
        getItem_removeItem_other _ _ _ (by decide)]
      exact getItem_removeItem_same st "token"
    · rw [getItem_removeItem_other _ _ _ (by decide),
        getItem_removeItem_other _ _ _ (by decide),
        getItem_removeItem_other _ _ _ (by decide),
        getItem_removeItem_other _ _ _ (by decide)]
      exact getItem_removeItem_same _ "basic_auth"
    · rw [getItem_removeItem_other _ _ _ (by decide),
        getItem_removeItem_other _ _ _ (by decide),
        getItem_removeItem_other _ _ _ (by decide)]
      exact getItem_removeItem_same _ "user_id"
    · rw [getItem_removeItem_other _ _ _ (by decide),
        getItem_removeItem_other _ _ _ (by decide)]
      exact getItem_removeItem_same _ "user_info"
    · rw [getItem_removeItem_other _ _ _ (by decide)]
      exact getItem_removeItem_same _ "auth_details"
    · exact getItem_removeItem_same _ "auth_api_response"
  · intro h
    simp [responseErrorInterceptor, h]

/-- Witness for C3 (amended): a 404 passes through with the store untouched,
and a 401 clears the basic credential and redirects. -/
theorem responseInterceptor_behavior_witness :
    ((responseErrorInterceptor (some 404) [("basic_auth", "B")]).store
        = [("basic_auth", "B")] ∧
      (responseErrorInterceptor (some 404)
          [("basic_auth", "B")]).redirectTo = none) ∧
    getItem (responseErrorInterceptor (some 401)
        [("basic_auth", "B")]).store "basic_auth" = none ∧
    (responseErrorInterceptor (some 401)
        [("basic_auth", "B")]).redirectTo = some "/login" :=
  ⟨(responseInterceptor_behavior (some 404) [("basic_auth", "B")]).2.2
      (by decide),
    ((responseInterceptor_behavior (some 401) [("basic_auth", "B")]).2.1
        rfl).2.1,
    ((responseInterceptor_behavior (some 401) [("basic_auth", "B")]).2.1
        rfl).2.2.2.2.2.2⟩

end PyAgent

namespace PyAgent

/-- **C7** For every input message, if the awaited send operation fails with
any error, the chat handler still yields a well-formed result: the fixed
structured error message is appended after the user message and the
in-progress flag is reset; no internal fault escapes unstructured. -/
theorem sendMessage_error_wellformed (st : ChatState) (now : Nat) (e : String)
    (hblank : isBlank st.inputText = false) (hload : st.isLoading = false) :
    (sendMessage st now (Except.error e)).isLoading = false ∧
    ∃ userMessage errorMessage : Message,
      (sendMessage st now (Except.error e)).messages
          = st.messages ++ [userMessage, errorMessage] ∧
      errorMessage.text = "Sorry, I encountered an error. Please try again." ∧
      errorMessage.sender = Sender.ai := by
  constructor
  · simp [sendMessage, hblank, hload]
  · refine
      ⟨{ id := toString now, text := st.inputText, sender := Sender.user,
         timestamp := now },
       { id := toString (now + 1),
         text := "Sorry, I encountered an error. Please try again.",
         sender := Sender.ai, timestamp := now }, ?_, rfl, rfl⟩
    simp [sendMessage, hblank, hload]

/-- Witness for C7: a failed send over a fresh state resets the flag and
appends the structured error message. -/
theorem sendMessage_error_wellformed_witness :
    (sendMessage { messages := [], inputText := "hi", isLoading := false } 0
        (Except.error "network down")).isLoading = false :=
  (sendMessage_error_wellformed
    { messages := [], inputText := "hi", isLoading := false } 0
    "network down" (by decide) rfl).1

/-- **C10** The WHERE filter sent by `authAPI.login` is the logical OR of
(username equals the input username) and (password equals the input
password): it matches a record iff either field matches, so in particular it
matches any record whose password equals the supplied password even when its
username differs. -/
theorem loginWhere_or_semantics (u p : String) (r : PersonRecord) :
    (orMatches (loginWhereQuery { username := u, password := p }) r = true ↔
      r.username = u ∨ r.password = p) ∧
    (r.password = p →
      orMatches (loginWhereQuery { username := u, password := p }) r
        = true) := by
  have h : orMatches (loginWhereQuery { username := u, password := p }) r
      = (decide (r.username = u) || decide (r.password = p)) := by
    simp [orMatches, loginWhereQuery, clauseMatches, recordField,
      List.any_cons, List.any_nil]
  constructor
  · rw [h]
    simp
  · intro hp
    rw [h]
    simp [hp]

/-- Witness for C10: the filter for credentials alice/pw matches the record
with username bob and password pw, whose username differs from the input. -/
theorem loginWhere_or_semantics_witness :
    orMatches (loginWhereQuery { username := "alice", password := "pw" })
        { username := "bob", password := "pw" } = true ∧
      ("bob" : String) ≠ "alice" :=
  ⟨(loginWhere_or_semantics "alice" "pw"
      { username := "bob", password := "pw" }).2 rfl, by decide⟩

end PyAgent

namespace PyAgent

/-! ## Runtime lemmas -/

theorem callLoop_success_iff_error_none (net : Nat → NetOutcome)
    (rc : Bool) :
    ∀ fuel k ru, ((callLoop net rc k fuel ru).success = true ↔
      (callLoop net rc k fuel ru).error = none) := by
  intro fuel
  induction fuel with
  | zero =>
    intro k ru
    simp [callLoop]
  | succ fuel ih =>
    intro k ru
    cases hnet : net k with
    | ok d s =>
      simp [callLoop, hnet]
    | httpErr s msg =>
      simp only [callLoop, hnet]
      by_cases h401 : s = 401
      · subst h401
        simp only [if_pos rfl]
        by_cases hrc : (rc && !ru) = true
        · simp only [hrc, if_true]
          simpa using ih (k + 1) true
        · simp only [Bool.not_eq_true] at hrc
          simp [hrc]
      · simp only [if_neg h401]
        by_cases hretry : ((500 ≤ s : Bool) && (fuel != 0)) = true
        · simp only [hretry, if_true]
          simpa using ih (k + 1) ru
        · simp only [Bool.not_eq_true] at hretry
          simp [hretry]
    | netFail msg =>
      simp only [callLoop, hnet]
      by_cases hfuel : (fuel != 0) = true
      · simp only [hfuel, if_true]
        simpa using ih (k + 1) ru
      · simp only [Bool.not_eq_true] at hfuel
        simp [hfuel]

theorem callLoop_attempts_pos (net : Nat → NetOutcome) (rc : Bool)
    (k fuel : Nat) (ru : Bool) :
    1 ≤ (callLoop net rc k (fuel + 1) ru).attempts := by
  cases hnet : net k with
  | ok d s =>
    simp [callLoop, hnet]
  | httpErr s msg =>
    simp only [callLoop, hnet]
    by_cases h401 : s = 401
    · subst h401
      simp only [if_pos rfl]
      by_cases hrc : (rc && !ru) = true
      · simp [hrc]
      · simp only [Bool.not_eq_true] at hrc
        simp [hrc]
    · simp only [if_neg h401]
      by_cases hretry : ((500 ≤ s : Bool) && (fuel != 0)) = true
      · simp [hretry]
      · simp only [Bool.not_eq_true] at hretry
        simp [hretry]
  | netFail msg =>
    simp only [callLoop, hnet]
    by_cases hfuel : (fuel != 0) = true
    · simp [hfuel]
    · simp only [Bool.not_eq_true] at hfuel
      simp [hfuel]

theorem callLoop_first_ok (net : Nat → NetOutcome) (rc : Bool) (fuel : Nat)
    (ru : Bool) (d : Payload) (s : Nat) (hnet : net 0 = NetOutcome.ok d s) :
    callLoop net rc 0 (fuel + 1) ru =
      { success := true, data := some d, error := none, status_code := s,
        attempts := 1 } := by
  simp [callLoop, hnet]

theorem cacheLookup_nil (key : CacheKey) (now : Nat) :
    cacheLookup [] key now = none := rfl

theorem cacheLookup_insert_self (cache : Cache) (key : CacheKey)
    (d : Payload) (t ttl now : Nat) :
    cacheLookup (cacheInsert cache key d t ttl) key now =
      if now - t ≤ ttl then some d else none := by
  simp [cacheLookup, cacheInsert, List.find?_cons, entryFresh]

end PyAgent

namespace PyAgent

/-- **C2** Every AgentResponse produced by the runtime `execute` operation
satisfies the spec invariant: success implies a null error, and failure
implies a non-null error. -/
theorem execute_response_invariant (cfg : RuntimeConfig)
    (net : Nat → NetOutcome) (now : Nat) (st : RuntimeState)
    (agentName : String) (intent : APIIntent) (payload : Payload)
    (targetUrl : String) :
    ((execute cfg net now st agentName intent payload targetUrl).1.success
        = true →
      (execute cfg net now st agentName intent payload targetUrl).1.error
        = none) ∧
    ((execute cfg net now st agentName intent payload targetUrl).1.success
        = false →
      (execute cfg net now st agentName intent payload targetUrl).1.error
        ≠ none) := by
  by_cases hv : validPayload intent payload = true
  · simp only [execute, hv, Bool.not_true, Bool.false_eq_true, if_false]
    cases hc : (if cacheableIntent intent then
        cacheLookup st.cache (cacheKey agentName intent payload) now
        else none) with
    | some v =>
      simp [hc]
    | none =>
      simp only [hc]
      have h := callLoop_success_iff_error_none net cfg.refreshConfigured
        (cfg.retryBound + 1) 0 false
      constructor
      · intro hs
        exact h.mp hs
      · intro hs hnone
        have hs2 : (callLoop net cfg.refreshConfigured 0 (cfg.retryBound + 1)
            false).success = false := hs
        have hn2 : (callLoop net cfg.refreshConfigured 0 (cfg.retryBound + 1)
            false).error = none := hnone
        rw [h.mpr hn2] at hs2
        cases hs2
  · simp only [Bool.not_eq_true] at hv
    simp [execute, hv]

/-- Witness for C2: on a concrete successful call the response has
success = true and error = null. -/
theorem execute_response_invariant_witness :
    (execute { retryBound := 2, cacheTtl := 10, refreshConfigured := false }
        (fun _ => NetOutcome.ok [("x", "1")] 200) 0 { cache := [] } "city"
        APIIntent.LIST [] "http://cities").1.error = none :=
  (execute_response_invariant
    { retryBound := 2, cacheTtl := 10, refreshConfigured := false }
    (fun _ => NetOutcome.ok [("x", "1")] 200) 0 { cache := [] } "city"
    APIIntent.LIST [] "http://cities").1 rfl

/-- **C4** For every atomic intent, a payload violating the intent's minimum
schema makes `execute` fail immediately: success = false, no URL is ever
appended to sources (zero network calls), and the runtime state is
untouched. -/
theorem execute_invalid_payload_no_network (cfg : RuntimeConfig)
    (net : Nat → NetOutcome) (now : Nat) (st : RuntimeState)
    (agentName : String) (intent : APIIntent) (payload : Payload)
    (targetUrl : String) (h : validPayload intent payload = false) :
    (execute cfg net now st agentName intent payload targetUrl).1.success
        = false ∧
    (execute cfg net now st agentName intent payload targetUrl).1.sources
        = [] ∧
    (execute cfg net now st agentName intent payload targetUrl).2 = st := by
  simp [execute, h]

/-- Witness for C4: SEARCH with an empty payload (no filter field) fails
with no network call. -/
theorem execute_invalid_payload_no_network_witness :
    (execute { retryBound := 2, cacheTtl := 10, refreshConfigured := false }
        (fun _ => NetOutcome.ok [("x", "1")] 200) 0 { cache := [] } "city"
        APIIntent.SEARCH [] "http://cities").1.success = false ∧
    (execute { retryBound := 2, cacheTtl := 10, refreshConfigured := false }
        (fun _ => NetOutcome.ok [("x", "1")] 200) 0 { cache := [] } "city"
        APIIntent.SEARCH [] "http://cities").1.sources = [] ∧
    (execute { retryBound := 2, cacheTtl := 10, refreshConfigured := false }
        (fun _ => NetOutcome.ok [("x", "1")] 200) 0 { cache := [] } "city"
        APIIntent.SEARCH [] "http://cities").2 = { cache := [] } :=
  execute_invalid_payload_no_network
    { retryBound := 2, cacheTtl := 10, refreshConfigured := false }
    (fun _ => NetOutcome.ok [("x", "1")] 200) 0 { cache := [] } "city"
    APIIntent.SEARCH [] "http://cities" rfl

/-- **C5** For a READ/SEARCH/LIST intent whose first call succeeds over an
empty cache, a second identical call within the ttl is served from the
cache: no network call (empty sources) and the same data; after ttl expiry
the same call misses and a fresh network call occurs (non-empty sources). -/
theorem execute_cache_hit_and_expiry (cfg : RuntimeConfig)
    (net net2 : Nat → NetOutcome) (t0 t1 : Nat) (agentName : String)
    (intent : APIIntent) (payload : Payload) (targetUrl : String)
    (d : Payload) (s : Nat)
    (hintent : cacheableIntent intent = true)
    (hvalid : validPayload intent payload = true)
    (hnet : net 0 = NetOutcome.ok d s) :
    (execute cfg net t0 { cache := [] } agentName intent payload
        targetUrl).1.data = some d ∧
    (t1 - t0 ≤ cfg.cacheTtl →
      (execute cfg net2 t1
          (execute cfg net t0 { cache := [] } agentName intent payload
            targetUrl).2 agentName intent payload targetUrl).1.data
          = some d ∧
      (execute cfg net2 t1
          (execute cfg net t0 { cache := [] } agentName intent payload
            targetUrl).2 agentName intent payload targetUrl).1.sources
          = []) ∧
    (cfg.cacheTtl < t1 - t0 →
      (execute cfg net2 t1
          (execute cfg net t0 { cache := [] } agentName intent payload
            targetUrl).2 agentName intent payload targetUrl).1.sources
          ≠ []) := by
  have hfirst : execute cfg net t0 { cache := [] } agentName intent payload
      targetUrl =
      ({ success := true, data := some d, error := none, status_code := s,
          intent := intent, agent_name := agentName, execution_time := 1,
          sources := List.replicate 1 targetUrl },
        { cache := cacheInsert [] (cacheKey agentName intent payload) d t0
            cfg.cacheTtl }) := by
    simp [execute, hvalid, hintent, cacheLookup_nil,
      callLoop_first_ok net cfg.refreshConfigured cfg.retryBound false d s
        hnet]
  refine ⟨?_, ?_, ?_⟩
  · rw [hfirst]
  · intro ht
    rw [hfirst]
    have hlook : cacheLookup
        (cacheInsert [] (cacheKey agentName intent payload) d t0
          cfg.cacheTtl)
        (cacheKey agentName intent payload) t1 = some d := by
      rw [cacheLookup_insert_self]
      simp [ht]
    constructor
    · simp [execute, hvalid, hintent, hlook]
    · simp [execute, hvalid, hintent, hlook]
  · intro ht
    rw [hfirst]
    have hlook : cacheLookup
        (cacheInsert [] (cacheKey agentName intent payload) d t0
          cfg.cacheTtl)
        (cacheKey agentName intent payload) t1 = none := by
      rw [cacheLookup_insert_self]
      simp [Nat.not_le.mpr ht]
    simp only [execute, hvalid, hintent, hlook, Bool.not_true,
      Bool.false_eq_true, if_false, if_true]
    intro hcon
    have hpos := callLoop_attempts_pos net2 cfg.refreshConfigured 0
      cfg.retryBound false
    have : (callLoop net2 cfg.refreshConfigured 0 (cfg.retryBound + 1)
        false).attempts = 0 := by
      simpa [List.replicate_eq_nil_iff] using hcon
    omega

/-- Witness for C5: a concrete READ cached at t=0 is served from cache at
t=5 with no network call and the same data, while at t=20 (past the ttl of
10) a fresh network call occurs. -/
theorem execute_cache_hit_and_expiry_witness :
    ((execute { retryBound := 2, cacheTtl := 10, refreshConfigured := false }
        (fun _ => NetOutcome.ok [("name", "Jaipur")] 200) 5
        (execute
          { retryBound := 2, cacheTtl := 10, refreshConfigured := false }
          (fun _ => NetOutcome.ok [("name", "Jaipur")] 200) 0 { cache := [] }
          "city" APIIntent.READ [("id", "c1")] "http://cities").2 "city"
        APIIntent.READ [("id", "c1")] "http://cities").1.data
      = some [("name", "Jaipur")] ∧
    (execute { retryBound := 2, cacheTtl := 10, refreshConfigured := false }
        (fun _ => NetOutcome.ok [("name", "Jaipur")] 200) 5
        (execute
          { retryBound := 2, cacheTtl := 10, refreshConfigured := false }
          (fun _ => NetOutcome.ok [("name", "Jaipur")] 200) 0 { cache := [] }
          "city" APIIntent.READ [("id", "c1")] "http://cities").2 "city"
        APIIntent.READ [("id", "c1")] "http://cities").1.sources = []) :=
  (execute_cache_hit_and_expiry
    { retryBound := 2, cacheTtl := 10, refreshConfigured := false }
    (fun _ => NetOutcome.ok [("name", "Jaipur")] 200)
    (fun _ => NetOutcome.ok [("name", "Jaipur")] 200) 0 5 "city"
    APIIntent.READ [("id", "c1")] "http://cities" [("name", "Jaipur")] 200
    rfl rfl rfl).2.1 (by decide)

end PyAgent
